import Mathlib

/-!
Verification of `src/service_status.cc`, a read-only facade over the
Windows service-control subsystem exposing three operations:
`serviceExists`, `getServiceStatus` and `listServices`.

The platform (Win32 service-control API) is modelled as a record of
responses to the individual API calls the source makes.  Each operation
is embedded as a function from the platform record and the JavaScript
argument list to an outcome consisting of the returned value or thrown
error, together with the ordered trace of platform calls performed.
Handle acquisition and release are recoverable from the trace, and a
`GetLastError` register is threaded through the calls exactly as Win32
maintains it: a failing API call stores its error code, a successful
call leaves the register unchanged.
-/

namespace ServiceStatus

/-- Win32 error and state constants used by the source. -/
def ERROR_ACCESS_DENIED : Nat := 5

def ERROR_INSUFFICIENT_BUFFER : Nat := 122

def ERROR_MORE_DATA : Nat := 234

def ERROR_SERVICE_DOES_NOT_EXIST : Nat := 1060

def SERVICE_STOPPED : Nat := 1

def SERVICE_START_PENDING : Nat := 2

def SERVICE_STOP_PENDING : Nat := 3

def SERVICE_RUNNING : Nat := 4

def SERVICE_CONTINUE_PENDING : Nat := 5

def SERVICE_PAUSE_PENDING : Nat := 6

def SERVICE_PAUSED : Nat := 7

/-- `StateToString` from the source: maps `dwCurrentState` to a string. -/
def stateToString (state : Nat) : String :=
  if state = SERVICE_STOPPED then "stopped"
  else if state = SERVICE_START_PENDING then "start_pending"
  else if state = SERVICE_STOP_PENDING then "stop_pending"
  else if state = SERVICE_RUNNING then "running"
  else if state = SERVICE_CONTINUE_PENDING then "continue_pending"
  else if state = SERVICE_PAUSE_PENDING then "pause_pending"
  else if state = SERVICE_PAUSED then "paused"
  else "unknown"

/-- A JavaScript argument as seen through N-API: a string, or some
non-string value (number, object, ...). -/
inductive JsValue where
  | str (s : String)
  | nonString
  deriving DecidableEq, Repr

/-- `info.Length() < 1 || !info[0].IsString()` from the source. -/
def badArgs (args : List JsValue) : Bool :=
  match args with
  | [] => true
  | JsValue.str _ :: _ => false
  | JsValue.nonString :: _ => true

/-- The first argument as a string (only used when `badArgs` is false). -/
def argString (args : List JsValue) : String :=
  match args with
  | JsValue.str s :: _ => s
  | _ => ""

/-- `SERVICE_STATUS_PROCESS` fields the source reads. -/
structure Ssp where
  dwCurrentState : Nat
  dwProcessId : Nat
  deriving DecidableEq, Repr

/-- One entry of the `ENUM_SERVICE_STATUS_PROCESSW` array returned by
the bulk enumeration. -/
structure EnumRec where
  lpServiceName : String
  lpDisplayName : String
  dwCurrentState : Nat
  dwProcessId : Nat
  deriving DecidableEq, Repr

/-- Responses of the Win32 service-control API to the calls the source
makes.  `Except.error e` means the call fails and sets last-error to
`e`; `Except.ok v` means it succeeds returning `v`.  The two-step
config query is split into the sizing call (which always returns FALSE
in Win32, yielding the needed byte count and setting an error code,
`ERROR_INSUFFICIENT_BUFFER` in the normal case) and the full call. -/
structure Platform where
  openSCManager : Except Nat Unit
  openService : String → Except Nat Unit
  queryStatusEx : Except Nat Ssp
  configSizingBytes : Nat
  configSizingErr : Nat
  configFull : Except Nat String
  enumSizingBytes : Nat
  enumSizingErr : Nat
  enumFull : Except Nat (List EnumRec)

/-- Trace events: one per platform API call made by an operation.  Open
events record whether a handle was acquired; the enumeration events
record the byte counts negotiated and used. -/
inductive Ev where
  | callOpenSCM (ok : Bool)
  | callOpenSvc (name : String) (ok : Bool)
  | callQueryStatusEx
  | callConfigSizing
  | callConfigFull
  | callClose
  | callEnumSizing (bytesNeeded : Nat)
  | callEnumFull (bufSize : Nat)
  deriving DecidableEq, Repr

/-- Does this event acquire a handle? -/
def Ev.acquires : Ev → Bool
  | Ev.callOpenSCM ok => ok
  | Ev.callOpenSvc _ ok => ok
  | _ => false

/-- Does this event release a handle? -/
def Ev.releases : Ev → Bool
  | Ev.callClose => true
  | _ => false

/-- Number of handles acquired in a trace. -/
def acquired (evs : List Ev) : Nat :=
  (evs.filter Ev.acquires).length

/-- Number of handles released in a trace. -/
def released (evs : List Ev) : Nat :=
  (evs.filter Ev.releases).length

/-- The errors the source throws, one constructor per throw site,
carrying the data interpolated into the message. -/
inductive JsError where
  | typeError (msg : String)
  | accessDeniedManager
  | openManagerFailed (code : Nat)
  | accessDeniedService (name : String)
  | openServiceFailed (name : String) (code : Nat)
  | queryStatusFailed (code : Nat)
  | enumFailed (code : Nat)
  deriving DecidableEq, Repr

/-- The record object built by `getServiceStatus`; `displayName = none`
models the not-found record on which the source never sets the field. -/
structure ServiceStatusRecord where
  name : String
  svcExists : Bool
  state : String
  pid : Nat
  displayName : Option String
  deriving DecidableEq, Repr

/-- Result of one operation: the returned value or thrown error, and
the ordered trace of platform calls made. -/
structure Outcome (α : Type) where
  result : Except JsError α
  calls : List Ev
  deriving Repr

/-- `ServiceExists` from the source. -/
def serviceExists (p : Platform) (args : List JsValue) : Outcome Bool :=
  if badArgs args then
    ⟨Except.error (JsError.typeError "Service name (string) expected"), []⟩
  else
    let name := argString args
    match p.openSCManager with
    | Except.error err =>
      if err = ERROR_ACCESS_DENIED then
        ⟨Except.error JsError.accessDeniedManager, [Ev.callOpenSCM false]⟩
      else
        ⟨Except.error (JsError.openManagerFailed err), [Ev.callOpenSCM false]⟩
    | Except.ok _ =>
      match p.openService name with
      | Except.error err =>
        let tr := [Ev.callOpenSCM true, Ev.callOpenSvc name false, Ev.callClose]
        if err = ERROR_SERVICE_DOES_NOT_EXIST then
          ⟨Except.ok false, tr⟩
        else if err = ERROR_ACCESS_DENIED then
          ⟨Except.error (JsError.accessDeniedService name), tr⟩
        else
          ⟨Except.error (JsError.openServiceFailed name err), tr⟩
      | Except.ok _ =>
        ⟨Except.ok true,
          [Ev.callOpenSCM true, Ev.callOpenSvc name true, Ev.callClose, Ev.callClose]⟩

/-- The not-found record built by `GetServiceStatus` when `OpenServiceW`
fails with `ERROR_SERVICE_DOES_NOT_EXIST`. -/
def notFoundRecord (name : String) : ServiceStatusRecord :=
  ⟨name, false, "not_found", 0, none⟩

/-- `GetServiceStatus` from the source.  After the service handle is
open, the source calls `QueryServiceStatusEx`, then the best-effort
config query (sizing call, and full call when the size is positive),
then closes both handles, and only then tests the status result and
reads `GetLastError` — so the error register is threaded through the
config calls exactly as Win32 maintains it. -/
def getServiceStatus (p : Platform) (args : List JsValue) :
    Outcome ServiceStatusRecord :=
  if badArgs args then
    ⟨Except.error (JsError.typeError "Service name (string) expected"), []⟩
  else
    let name := argString args
    match p.openSCManager with
    | Except.error err =>
      if err = ERROR_ACCESS_DENIED then
        ⟨Except.error JsError.accessDeniedManager, [Ev.callOpenSCM false]⟩
      else
        ⟨Except.error (JsError.openManagerFailed err), [Ev.callOpenSCM false]⟩
    | Except.ok _ =>
      match p.openService name with
      | Except.error err =>
        let tr := [Ev.callOpenSCM true, Ev.callOpenSvc name false, Ev.callClose]
        if err = ERROR_SERVICE_DOES_NOT_EXIST then
          ⟨Except.ok (notFoundRecord name), tr⟩
        else if err = ERROR_ACCESS_DENIED then
          ⟨Except.error (JsError.accessDeniedService name), tr⟩
        else
          ⟨Except.error (JsError.openServiceFailed name err), tr⟩
      | Except.ok _ =>
        -- QueryServiceStatusEx runs here; if it fails it stores its code
        -- in last-error, but the source does not read the register yet.
        -- Sizing call QueryServiceConfigW(h, nullptr, 0, &configBytes):
        -- always returns FALSE, setting last-error (ERROR_INSUFFICIENT_BUFFER
        -- in the normal case) and reporting the needed byte count.
        let configBytes := p.configSizingBytes
        let lastErr1 := p.configSizingErr
        -- Full config call when configBytes > 0: on success the display
        -- name is captured and last-error is unchanged; on failure the
        -- display name stays empty and last-error is overwritten.
        let afterConfig : String × Nat × List Ev :=
          if configBytes > 0 then
            match p.configFull with
            | Except.ok s => (s, lastErr1, [Ev.callConfigFull])
            | Except.error e => ("", e, [Ev.callConfigFull])
          else
            ("", lastErr1, [])
        let displayName := afterConfig.1
        let lastErr2 := afterConfig.2.1
        let tr := [Ev.callOpenSCM true, Ev.callOpenSvc name true,
                   Ev.callQueryStatusEx, Ev.callConfigSizing] ++
                  afterConfig.2.2 ++ [Ev.callClose, Ev.callClose]
        match p.queryStatusEx with
        | Except.error _ =>
          -- `if (!ok) { DWORD err = GetLastError(); ... }`: the register
          -- read here is the one left by the config calls, not
          -- `statusLastErr`.
          ⟨Except.error (JsError.queryStatusFailed lastErr2), tr⟩
        | Except.ok ssp =>
          ⟨Except.ok ⟨name, true, stateToString ssp.dwCurrentState,
                       ssp.dwProcessId, some displayName⟩, tr⟩

/-- The record built for one bulk-enumeration entry in `ListServices`. -/
def enumRecord (r : EnumRec) : ServiceStatusRecord :=
  ⟨r.lpServiceName, true, stateToString r.dwCurrentState,
   r.dwProcessId, some r.lpDisplayName⟩

/-- `ListServices` from the source: sizing call, enumeration into a
buffer of exactly the reported size, close, then test the result. -/
def listServices (p : Platform) : Outcome (List ServiceStatusRecord) :=
  match p.openSCManager with
  | Except.error err =>
    if err = ERROR_ACCESS_DENIED then
      ⟨Except.error JsError.accessDeniedManager, [Ev.callOpenSCM false]⟩
    else
      ⟨Except.error (JsError.openManagerFailed err), [Ev.callOpenSCM false]⟩
  | Except.ok _ =>
    let bytesNeeded := p.enumSizingBytes
    let tr := [Ev.callOpenSCM true, Ev.callEnumSizing bytesNeeded,
               Ev.callEnumFull bytesNeeded, Ev.callClose]
    match p.enumFull with
    | Except.error err =>
      ⟨Except.error (JsError.enumFailed err), tr⟩
    | Except.ok recs =>
      ⟨Except.ok (recs.map enumRecord), tr⟩

/-! Concrete platform instantiations used to evaluate the operations on
closed inputs.  Field order: `openSCManager`, `openService`,
`queryStatusEx`, `configSizingBytes`, `configSizingErr`, `configFull`,
`enumSizingBytes`, `enumSizingErr`, `enumFull`. -/

/-- A platform on which no service of any name is registered. -/
def pNotFound : Platform :=
  ⟨Except.ok (), fun _ => Except.error ERROR_SERVICE_DOES_NOT_EXIST,
   Except.error 6, 0, 6, Except.error 6, 0, ERROR_MORE_DATA, Except.ok []⟩

/-- A platform where both opens succeed but `QueryServiceStatusEx`
fails with `ERROR_ACCESS_DENIED`; the config sizing call then reports
276 bytes needed setting `ERROR_INSUFFICIENT_BUFFER`, and the full
config query succeeds. -/
def pStatusFail : Platform :=
  ⟨Except.ok (), fun _ => Except.ok (),
   Except.error ERROR_ACCESS_DENIED, 276, ERROR_INSUFFICIENT_BUFFER,
   Except.ok "Print Spooler", 0, ERROR_MORE_DATA, Except.ok []⟩

/-- A platform where the status query succeeds (running, pid 1044) but
the full display-name config query fails. -/
def pConfigFail : Platform :=
  ⟨Except.ok (), fun _ => Except.ok (),
   Except.ok ⟨SERVICE_RUNNING, 1044⟩, 276, ERROR_INSUFFICIENT_BUFFER,
   Except.error ERROR_ACCESS_DENIED, 0, ERROR_MORE_DATA, Except.ok []⟩

/-- A platform where everything about one running service succeeds but
its reported state code (99) is outside the known set. -/
def pUnknownState : Platform :=
  ⟨Except.ok (), fun _ => Except.ok (),
   Except.ok ⟨99, 1044⟩, 276, ERROR_INSUFFICIENT_BUFFER,
   Except.ok "Print Spooler", 0, ERROR_MORE_DATA, Except.ok []⟩

/-- A platform denying access to the service manager itself. -/
def pManagerDenied : Platform :=
  ⟨Except.error ERROR_ACCESS_DENIED, fun _ => Except.error ERROR_ACCESS_DENIED,
   Except.error 6, 0, 6, Except.error 6, 0, ERROR_MORE_DATA, Except.ok []⟩

/-- A platform denying access to the named service after the manager
session opened. -/
def pServiceDenied : Platform :=
  ⟨Except.ok (), fun _ => Except.error ERROR_ACCESS_DENIED,
   Except.error 6, 0, 6, Except.error 6, 0, ERROR_MORE_DATA, Except.ok []⟩

/-- A platform whose bulk enumeration holds one running service. -/
def pList : Platform :=
  ⟨Except.ok (), fun _ => Except.ok (),
   Except.ok ⟨SERVICE_RUNNING, 1044⟩, 0, 6, Except.ok "", 4096, ERROR_MORE_DATA,
   Except.ok [⟨"Spooler", "Print Spooler", SERVICE_RUNNING, 1044⟩]⟩

/-- A platform where the second enumeration call fails with error 6
after the sizing call reported 4096 bytes. -/
def pEnumFail : Platform :=
  ⟨Except.ok (), fun _ => Except.ok (),
   Except.ok ⟨SERVICE_RUNNING, 1044⟩, 0, 6, Except.ok "", 4096, ERROR_MORE_DATA,
   Except.error 6⟩

/-! Helper lemmas shared by several proofs. -/

theorem badArgs_str (s : String) (rest : List JsValue) :
    badArgs (JsValue.str s :: rest) = false := rfl

theorem argString_str (s : String) (rest : List JsValue) :
    argString (JsValue.str s :: rest) = s := rfl

/-- Claim C1: every operation releases exactly as many handles as it
acquired, on every exit path — success, argument error, manager-open
failure, service-open failure, status-query failure and enumeration
failure alike — so no call leaks a session or service handle. -/
theorem no_handle_leak (p : Platform) (args : List JsValue) :
    released (serviceExists p args).calls = acquired (serviceExists p args).calls ∧
    released (getServiceStatus p args).calls = acquired (getServiceStatus p args).calls ∧
    released (listServices p).calls = acquired (listServices p).calls := by
  refine ⟨?_, ?_, ?_⟩
  · unfold serviceExists
    dsimp only
    repeat' split
    all_goals rfl
  · unfold getServiceStatus
    dsimp only
    repeat' split
    all_goals rfl
  · unfold listServices
    dsimp only
    repeat' split
    all_goals rfl

/-- Witness for `no_handle_leak` at a concrete platform and argument. -/
theorem no_handle_leak_check :
    released (serviceExists pNotFound [JsValue.str "x"]).calls =
      acquired (serviceExists pNotFound [JsValue.str "x"]).calls ∧
    released (getServiceStatus pNotFound [JsValue.str "x"]).calls =
      acquired (getServiceStatus pNotFound [JsValue.str "x"]).calls ∧
    released (listServices pNotFound).calls = acquired (listServices pNotFound).calls :=
  no_handle_leak pNotFound [JsValue.str "x"]

/-- Claim C2: when the platform reports `ERROR_SERVICE_DOES_NOT_EXIST`,
`serviceExists` returns `false` as a normal result and
`getServiceStatus` returns the record with `exists = false`,
`state = "not_found"`, `pid = 0` and no display name; neither throws. -/
theorem not_found_is_data (p : Platform) (name : String)
    (hm : p.openSCManager = Except.ok ())
    (hs : p.openService name = Except.error ERROR_SERVICE_DOES_NOT_EXIST) :
    (serviceExists p [JsValue.str name]).result = Except.ok false ∧
    (getServiceStatus p [JsValue.str name]).result =
      Except.ok ⟨name, false, "not_found", 0, none⟩ := by
  constructor
  · simp [serviceExists, badArgs, argString, hm, hs]
  · simp [getServiceStatus, badArgs, argString, hm, hs, notFoundRecord]

/-- Witness for `not_found_is_data` on the platform with no services. -/
theorem not_found_is_data_check :
    (serviceExists pNotFound [JsValue.str "NoSuchServiceXYZ123"]).result =
      Except.ok false ∧
    (getServiceStatus pNotFound [JsValue.str "NoSuchServiceXYZ123"]).result =
      Except.ok ⟨"NoSuchServiceXYZ123", false, "not_found", 0, none⟩ :=
  not_found_is_data pNotFound "NoSuchServiceXYZ123" rfl rfl

/-- Claim C6: the numeric-state mapping is total and deterministic —
each of the seven known codes maps to its named state, every other code
maps to `"unknown"`, and an unrecognized code never makes
`getServiceStatus` fail: with the handles open and the status query
succeeding, the call returns a record whose state is
`stateToString` of whatever code the platform reported. -/
theorem state_mapping :
    (stateToString SERVICE_STOPPED = "stopped" ∧
     stateToString SERVICE_START_PENDING = "start_pending" ∧
     stateToString SERVICE_STOP_PENDING = "stop_pending" ∧
     stateToString SERVICE_RUNNING = "running" ∧
     stateToString SERVICE_CONTINUE_PENDING = "continue_pending" ∧
     stateToString SERVICE_PAUSE_PENDING = "pause_pending" ∧
     stateToString SERVICE_PAUSED = "paused") ∧
    (∀ c : Nat,
       c ∉ ([SERVICE_STOPPED, SERVICE_START_PENDING, SERVICE_STOP_PENDING,
             SERVICE_RUNNING, SERVICE_CONTINUE_PENDING, SERVICE_PAUSE_PENDING,
             SERVICE_PAUSED] : List Nat) →
       stateToString c = "unknown") ∧
    (∀ (p : Platform) (name : String) (ssp : Ssp),
       p.openSCManager = Except.ok () → p.openService name = Except.ok () →
       p.queryStatusEx = Except.ok ssp →
       ∃ r, (getServiceStatus p [JsValue.str name]).result = Except.ok r ∧
         r.state = stateToString ssp.dwCurrentState) := by
  refine ⟨⟨rfl, rfl, rfl, rfl, rfl, rfl, rfl⟩, ?_, ?_⟩
  · intro c hc
    simp [SERVICE_STOPPED, SERVICE_START_PENDING, SERVICE_STOP_PENDING,
          SERVICE_RUNNING, SERVICE_CONTINUE_PENDING, SERVICE_PAUSE_PENDING,
          SERVICE_PAUSED] at hc
    obtain ⟨h1, h2, h3, h4, h5, h6, h7⟩ := hc
    simp [stateToString, SERVICE_STOPPED, SERVICE_START_PENDING,
          SERVICE_STOP_PENDING, SERVICE_RUNNING, SERVICE_CONTINUE_PENDING,
          SERVICE_PAUSE_PENDING, SERVICE_PAUSED, h1, h2, h3, h4, h5, h6, h7]
  · intro p name ssp hm hs hq
    unfold getServiceStatus
    simp only [badArgs_str, argString_str, hm, hs, hq, Bool.false_eq_true,
      if_false]
    split
    · split
      all_goals exact ⟨_, rfl, rfl⟩
    · exact ⟨_, rfl, rfl⟩

/-- Witness for `state_mapping`: the unrecognized code 99 maps to
`"unknown"` and does not fail the status query on `pUnknownState`. -/
theorem state_mapping_check :
    stateToString 99 = "unknown" ∧
    (∃ r, (getServiceStatus pUnknownState [JsValue.str "Svc"]).result =
        Except.ok r ∧ r.state = stateToString 99) :=
  ⟨state_mapping.2.1 99 (by decide),
   state_mapping.2.2 pUnknownState "Svc" ⟨99, 1044⟩ rfl rfl rfl⟩

/-- Claim C3 counterexample: the source's validation only checks
`info.Length() < 1 || !info[0].IsString()`, so the empty string passes
it — `serviceExists("")` on a platform with no registered services
reaches the platform (its call trace is non-empty, the manager session
is opened) and returns `false` instead of failing with
`InvalidArgument` before any platform interaction. -/
theorem empty_name_reaches_platform :
    (serviceExists pNotFound [JsValue.str ""]).result = Except.ok false ∧
    (serviceExists pNotFound [JsValue.str ""]).calls =
      [Ev.callOpenSCM true, Ev.callOpenSvc "" false, Ev.callClose] ∧
    (getServiceStatus pNotFound [JsValue.str ""]).calls =
      [Ev.callOpenSCM true, Ev.callOpenSvc "" false, Ev.callClose] := by
  refine ⟨rfl, rfl, rfl⟩

/-- Claim C3 (amended): when the name argument is missing or not a
string, both `serviceExists` and `getServiceStatus` fail with the
`InvalidArgument` type error before any platform interaction — the call
trace is empty, so no manager session is opened and no platform call of
any kind is attempted.  (The empty string is not validated: it proceeds
to the platform like any other string.) -/
theorem arg_validation_first (p : Platform) (args : List JsValue)
    (h : args = [] ∨ ∃ rest, args = JsValue.nonString :: rest) :
    (serviceExists p args).result =
        Except.error (JsError.typeError "Service name (string) expected") ∧
    (serviceExists p args).calls = [] ∧
    (getServiceStatus p args).result =
        Except.error (JsError.typeError "Service name (string) expected") ∧
    (getServiceStatus p args).calls = [] := by
  have hb : badArgs args = true := by
    rcases h with h | ⟨rest, h⟩ <;> subst h <;> rfl
  refine ⟨?_, ?_, ?_, ?_⟩ <;> simp [serviceExists, getServiceStatus, hb]

/-- Witness for `arg_validation_first` at a wrong-typed argument. -/
theorem arg_validation_first_check :
    (serviceExists pNotFound [JsValue.nonString]).result =
        Except.error (JsError.typeError "Service name (string) expected") ∧
    (serviceExists pNotFound [JsValue.nonString]).calls = [] ∧
    (getServiceStatus pNotFound [JsValue.nonString]).result =
        Except.error (JsError.typeError "Service name (string) expected") ∧
    (getServiceStatus pNotFound [JsValue.nonString]).calls = [] :=
  arg_validation_first pNotFound [JsValue.nonString] (Or.inr ⟨[], rfl⟩)

/-- Claim C4 (code bug): on `pStatusFail` the status query fails with
`ERROR_ACCESS_DENIED` (5), yet the thrown error carries
`ERROR_INSUFFICIENT_BUFFER` (122) — the code reads `GetLastError()`
only after the best-effort config calls have overwritten the register
(the sizing call always fails, normally with error 122), so the
reported code is not the native error code of the failed status query.
No partial record is returned: the result is an error. -/
theorem status_error_code_overwritten :
    pStatusFail.queryStatusEx = Except.error ERROR_ACCESS_DENIED ∧
    (getServiceStatus pStatusFail [JsValue.str "Spooler"]).result =
      Except.error (JsError.queryStatusFailed ERROR_INSUFFICIENT_BUFFER) ∧
    ERROR_INSUFFICIENT_BUFFER ≠ ERROR_ACCESS_DENIED := by
  refine ⟨rfl, rfl, by decide⟩

/-- Claim C5: when the status query succeeds but the full display-name
config query fails, `getServiceStatus` still succeeds and returns the
record with `displayName` equal to the empty string. -/
theorem display_name_best_effort (p : Platform) (name : String) (ssp : Ssp)
    (e : Nat)
    (hm : p.openSCManager = Except.ok ())
    (hs : p.openService name = Except.ok ())
    (hq : p.queryStatusEx = Except.ok ssp)
    (hb : 0 < p.configSizingBytes)
    (hc : p.configFull = Except.error e) :
    (getServiceStatus p [JsValue.str name]).result =
      Except.ok ⟨name, true, stateToString ssp.dwCurrentState,
                 ssp.dwProcessId, some ""⟩ := by
  unfold getServiceStatus
  simp [badArgs_str, argString_str, hm, hs, hq, hc, hb]

/-- Witness for `display_name_best_effort` on `pConfigFail`. -/
theorem display_name_best_effort_check :
    (getServiceStatus pConfigFail [JsValue.str "Spooler"]).result =
      Except.ok ⟨"Spooler", true, stateToString SERVICE_RUNNING, 1044, some ""⟩ :=
  display_name_best_effort pConfigFail "Spooler" ⟨SERVICE_RUNNING, 1044⟩
    ERROR_ACCESS_DENIED rfl rfl rfl (by decide) rfl

/-- Claim C7: every record returned with `exists = false` has
`state = "not_found"`, `pid = 0` and no display name; the list returned
by `listServices` is exactly the image of the bulk-enumeration records
under `enumRecord`, and every such image record has `exists = true` and
its display name taken directly from the bulk record. -/
theorem record_invariants :
    (∀ (p : Platform) (args : List JsValue) (r : ServiceStatusRecord),
       (getServiceStatus p args).result = Except.ok r → r.svcExists = false →
       r.state = "not_found" ∧ r.pid = 0 ∧ r.displayName = none) ∧
    (∀ (p : Platform) (rs : List ServiceStatusRecord),
       (listServices p).result = Except.ok rs →
       ∃ recs, p.enumFull = Except.ok recs ∧ rs = recs.map enumRecord) ∧
    (∀ rec : EnumRec, (enumRecord rec).svcExists = true ∧
       (enumRecord rec).displayName = some rec.lpDisplayName) := by
  refine ⟨?_, ?_, fun rec => ⟨rfl, rfl⟩⟩
  · intro p args r hr hfalse
    unfold getServiceStatus at hr
    dsimp only at hr
    repeat' split at hr
    all_goals first
      | (injection hr with hr; subst hr; simp_all [notFoundRecord])
      | simp_all [notFoundRecord]
  · intro p rs h
    unfold listServices at h
    rcases hm : p.openSCManager with merr | mu
    · rw [hm] at h
      dsimp only at h
      split at h <;> simp_all
    · rw [hm] at h
      dsimp only at h
      rcases he : p.enumFull with err | recs
      · rw [he] at h
        simp_all
      · rw [he] at h
        dsimp only at h
        refine ⟨recs, rfl, ?_⟩
        injection h with h
        exact h.symm

/-- Witness for `record_invariants` on the not-found record and the
one-service enumeration platform. -/
theorem record_invariants_check :
    ((notFoundRecord "x").state = "not_found" ∧ (notFoundRecord "x").pid = 0 ∧
       (notFoundRecord "x").displayName = none) ∧
    (∃ recs, pList.enumFull = Except.ok recs ∧
       [enumRecord ⟨"Spooler", "Print Spooler", SERVICE_RUNNING, 1044⟩] =
         recs.map enumRecord) ∧
    ((enumRecord ⟨"Spooler", "Print Spooler", SERVICE_RUNNING, 1044⟩).svcExists
        = true ∧
     (enumRecord ⟨"Spooler", "Print Spooler", SERVICE_RUNNING, 1044⟩).displayName
        = some "Print Spooler") :=
  ⟨record_invariants.1 pNotFound [JsValue.str "x"] (notFoundRecord "x") rfl rfl,
   record_invariants.2.1 pList
     [enumRecord ⟨"Spooler", "Print Spooler", SERVICE_RUNNING, 1044⟩] rfl,
   record_invariants.2.2 ⟨"Spooler", "Print Spooler", SERVICE_RUNNING, 1044⟩⟩

/-- Claim C8: `listServices` first makes the sizing enumeration call,
then the real enumeration into a buffer of exactly the reported size;
if that second call fails, the operation fails with an error carrying
the native code, so no partial list is returned. -/
theorem enum_two_phase (p : Platform) (hm : p.openSCManager = Except.ok ()) :
    (listServices p).calls =
      [Ev.callOpenSCM true, Ev.callEnumSizing p.enumSizingBytes,
       Ev.callEnumFull p.enumSizingBytes, Ev.callClose] ∧
    ∀ e, p.enumFull = Except.error e →
      (listServices p).result = Except.error (JsError.enumFailed e) := by
  constructor
  · unfold listServices
    rw [hm]
    dsimp only
    split <;> rfl
  · intro e he
    unfold listServices
    rw [hm]
    dsimp only
    rw [he]

/-- Witness for `enum_two_phase` on the failing-enumeration platform. -/
theorem enum_two_phase_check :
    (listServices pEnumFail).calls =
      [Ev.callOpenSCM true, Ev.callEnumSizing 4096, Ev.callEnumFull 4096,
       Ev.callClose] ∧
    (listServices pEnumFail).result = Except.error (JsError.enumFailed 6) :=
  ⟨(enum_two_phase pEnumFail rfl).1, (enum_two_phase pEnumFail rfl).2 6 rfl⟩

/-- Claim C9: access denied opening the manager yields the
manager-denied error on both operations; access denied opening the
named service yields the service-denied error carrying the name; the
two errors are distinct, so the caller can tell which resource was
denied. -/
theorem permission_denied_distinguished (p : Platform) (name : String) :
    (p.openSCManager = Except.error ERROR_ACCESS_DENIED →
       (serviceExists p [JsValue.str name]).result =
         Except.error JsError.accessDeniedManager ∧
       (getServiceStatus p [JsValue.str name]).result =
         Except.error JsError.accessDeniedManager) ∧
    (p.openSCManager = Except.ok () →
     p.openService name = Except.error ERROR_ACCESS_DENIED →
       (serviceExists p [JsValue.str name]).result =
         Except.error (JsError.accessDeniedService name) ∧
       (getServiceStatus p [JsValue.str name]).result =
         Except.error (JsError.accessDeniedService name)) ∧
    JsError.accessDeniedManager ≠ JsError.accessDeniedService name := by
  refine ⟨?_, ?_, by simp⟩
  · intro hm
    constructor <;>
      simp [serviceExists, getServiceStatus, badArgs_str, argString_str, hm]
  · intro hm hs
    constructor <;>
      simp [serviceExists, getServiceStatus, badArgs_str, argString_str, hm, hs,
            ERROR_ACCESS_DENIED, ERROR_SERVICE_DOES_NOT_EXIST]

/-- Witness for `permission_denied_distinguished` on the two denying
platforms. -/
theorem permission_denied_distinguished_check :
    ((serviceExists pManagerDenied [JsValue.str "Svc"]).result =
        Except.error JsError.accessDeniedManager ∧
     (getServiceStatus pManagerDenied [JsValue.str "Svc"]).result =
        Except.error JsError.accessDeniedManager) ∧
    ((serviceExists pServiceDenied [JsValue.str "Svc"]).result =
        Except.error (JsError.accessDeniedService "Svc") ∧
     (getServiceStatus pServiceDenied [JsValue.str "Svc"]).result =
        Except.error (JsError.accessDeniedService "Svc")) ∧
    JsError.accessDeniedManager ≠ JsError.accessDeniedService "Svc" :=
  ⟨(permission_denied_distinguished pManagerDenied "Svc").1 rfl,
   (permission_denied_distinguished pServiceDenied "Svc").2.1 rfl rfl,
   (permission_denied_distinguished pServiceDenied "Svc").2.2⟩

/-- After both opens succeed, `getServiceStatus` either fails with a
status-query error or returns a record with `svcExists = true`. -/
theorem getStatus_after_open (p : Platform) (name : String)
    (hm : p.openSCManager = Except.ok ())
    (hs : p.openService name = Except.ok ()) :
    (∃ e, (getServiceStatus p [JsValue.str name]).result =
        Except.error (JsError.queryStatusFailed e)) ∨
    (∃ ssp dn, p.queryStatusEx = Except.ok ssp ∧
       (getServiceStatus p [JsValue.str name]).result =
         Except.ok ⟨name, true, stateToString ssp.dwCurrentState,
                    ssp.dwProcessId, some dn⟩) := by
  unfold getServiceStatus
  simp only [badArgs_str, argString_str, hm, hs, Bool.false_eq_true, if_false]
  try dsimp only
  rcases hq : p.queryStatusEx with qerr | ssp <;> try dsimp only
  · exact Or.inl ⟨_, rfl⟩
  · exact Or.inr ⟨ssp, _, rfl, rfl⟩

/-- Claim C10 counterexample: on `pStatusFail` (both opens succeed, the
status query fails) `serviceExists` returns `true` while
`getServiceStatus` throws, so the two operations do not agree in the
sense of the claim. -/
theorem exists_status_disagree :
    (serviceExists pStatusFail [JsValue.str "Spooler"]).result =
      Except.ok true ∧
    (getServiceStatus pStatusFail [JsValue.str "Spooler"]).result =
      Except.error (JsError.queryStatusFailed ERROR_INSUFFICIENT_BUFFER) :=
  ⟨rfl, rfl⟩

/-- Claim C10 (amended): `serviceExists` returns `false` exactly when
`getServiceStatus` returns the not-found record; whenever
`getServiceStatus` returns a record with `exists = true`,
`serviceExists` returns `true` (the converse fails when the status
query fails after a successful open); and both operations fail with
the same error whenever opening the session or the service fails. -/
theorem exists_status_agree (p : Platform) (name : String) :
    ((serviceExists p [JsValue.str name]).result = Except.ok false ↔
       (getServiceStatus p [JsValue.str name]).result =
         Except.ok (notFoundRecord name)) ∧
    (∀ r, (getServiceStatus p [JsValue.str name]).result = Except.ok r →
       r.svcExists = true →
       (serviceExists p [JsValue.str name]).result = Except.ok true) ∧
    (∀ err, p.openSCManager = Except.error err →
       ∀ e : JsError,
         ((serviceExists p [JsValue.str name]).result = Except.error e ↔
          (getServiceStatus p [JsValue.str name]).result = Except.error e)) ∧
    (∀ err, p.openSCManager = Except.ok () →
       p.openService name = Except.error err →
       ∀ e : JsError,
         ((serviceExists p [JsValue.str name]).result = Except.error e ↔
          (getServiceStatus p [JsValue.str name]).result = Except.error e)) := by
  rcases hm : p.openSCManager with merr | mu
  · have h12 : ∃ er : JsError,
        (serviceExists p [JsValue.str name]).result = Except.error er ∧
        (getServiceStatus p [JsValue.str name]).result = Except.error er := by
      by_cases hacc : merr = ERROR_ACCESS_DENIED
      · exact ⟨JsError.accessDeniedManager,
          by simp [serviceExists, badArgs, argString, hm, hacc],
          by simp [getServiceStatus, badArgs, argString, hm, hacc]⟩
      · exact ⟨JsError.openManagerFailed merr,
          by simp [serviceExists, badArgs, argString, hm, hacc],
          by simp [getServiceStatus, badArgs, argString, hm, hacc]⟩
    obtain ⟨er, h1, h2⟩ := h12
    refine ⟨?_, ?_, ?_, ?_⟩
    · rw [h1, h2]; simp
    · intro r hr
      rw [h2] at hr
      simp at hr
    · intro err hmerr e
      rw [h1, h2]
      simp
    · intro err hok hserr e
      simp at hok
  · cases mu
    rcases hs : p.openService name with serr | su
    · by_cases h1060 : serr = ERROR_SERVICE_DOES_NOT_EXIST
      · have h1 : (serviceExists p [JsValue.str name]).result =
            Except.ok false := by
          simp [serviceExists, badArgs, argString, hm, hs, h1060]
        have h2 : (getServiceStatus p [JsValue.str name]).result =
            Except.ok (notFoundRecord name) := by
          simp [getServiceStatus, badArgs, argString, hm, hs, h1060,
                notFoundRecord]
        refine ⟨?_, ?_, ?_, ?_⟩
        · rw [h1, h2]; simp
        · intro r hr htrue
          rw [h2] at hr
          injection hr with hr
          subst hr
          simp [notFoundRecord] at htrue
        · intro err hmerr e
          simp at hmerr
        · intro err hok hserr e
          rw [h1, h2]
          simp
      · have h12 : ∃ er : JsError,
            (serviceExists p [JsValue.str name]).result = Except.error er ∧
            (getServiceStatus p [JsValue.str name]).result = Except.error er := by
          by_cases hacc : serr = ERROR_ACCESS_DENIED
          · exact ⟨JsError.accessDeniedService name,
              by simp [serviceExists, badArgs, argString, hm, hs, h1060, hacc,
                       ERROR_ACCESS_DENIED, ERROR_SERVICE_DOES_NOT_EXIST],
              by simp [getServiceStatus, badArgs, argString, hm, hs, h1060, hacc,
                       ERROR_ACCESS_DENIED, ERROR_SERVICE_DOES_NOT_EXIST]⟩
          · exact ⟨JsError.openServiceFailed name serr,
              by simp [serviceExists, badArgs, argString, hm, hs, h1060, hacc],
              by simp [getServiceStatus, badArgs, argString, hm, hs, h1060, hacc]⟩
        obtain ⟨er, h1, h2⟩ := h12
        refine ⟨?_, ?_, ?_, ?_⟩
        · rw [h1, h2]; simp
        · intro r hr
          rw [h2] at hr
          simp at hr
        · intro err hmerr e
          simp at hmerr
        · intro err hok hserr e
          rw [h1, h2]
          simp
    · cases su
      have h1 : (serviceExists p [JsValue.str name]).result = Except.ok true := by
        simp [serviceExists, badArgs, argString, hm, hs]
      rcases getStatus_after_open p name hm hs with ⟨e0, h2⟩ | ⟨ssp, dn, hq, h2⟩
      · refine ⟨?_, ?_, ?_, ?_⟩
        · rw [h1, h2]; simp
        · intro r hr
          rw [h2] at hr
          simp at hr
        · intro err hmerr e
          simp at hmerr
        · intro err hok hserr e
          simp at hserr
      · refine ⟨?_, ?_, ?_, ?_⟩
        · rw [h1, h2]; simp [notFoundRecord]
        · intro r hr htrue
          exact h1
        · intro err hmerr e
          simp at hmerr
        · intro err hok hserr e
          simp at hserr

/-- Witness for `exists_status_agree`: on the platform with no
registered services, `serviceExists "x"` returning `false` forces the
not-found record out of `getServiceStatus "x"`. -/
theorem exists_status_agree_check :
    (getServiceStatus pNotFound [JsValue.str "x"]).result =
      Except.ok (notFoundRecord "x") :=
  (exists_status_agree pNotFound "x").1.mp rfl

end ServiceStatus
